import Mathlib

/-!
Shallow embedding of the geofence evaluation and alert dispatch pipeline of
`src/backend/server.py`, together with the alert read-marking endpoint.

Conventions of the embedding:
* Python floats (coordinates, radii) are modelled as rationals `ℚ`; the
  distance computation, which takes a square root, lands in `ℝ`.
* MongoDB collections are modelled as Lean lists in insertion order;
  `find_one` is `List.find?`, `find(filter)` is `List.filter`,
  `insert_one` appends.
* Fresh UUIDs are passed in as parameters (`locId`, `alertId`).
* Fallible infrastructure operations (the alert `insert_one` and the
  websocket `send_text`) are modelled with Boolean failure oracles; a
  `True` oracle value means the corresponding call raises.  An uncaught
  exception is modelled by an `Except.error` outcome: the Python code has
  no try/except in this pipeline, so a raise aborts the rest of the
  handler while already-committed database writes persist.
* Timestamps and other fields never read by the modelled endpoints
  (`created_at`, `screen_time_limits`, ...) are omitted.
-/

namespace GeofenceApp

/-- A monitored teen (`Teen` model): id, name, owning parent, device. -/
structure Teen where
  id : String
  name : String
  parent_id : String
  device_id : String
deriving DecidableEq

/-- A stored location sample (`Location` model). -/
structure Location where
  id : String
  teen_id : String
  latitude : ℚ
  longitude : ℚ
  accuracy : Option ℚ
  address : Option String
deriving DecidableEq

/-- A geofence (`Geofence` model): circular region owned by a teen. -/
structure Geofence where
  id : String
  teen_id : String
  name : String
  latitude : ℚ
  longitude : ℚ
  radius : ℚ
  type : String
  notify_on_enter : Bool
  notify_on_exit : Bool
deriving DecidableEq

/-- A durable alert record (`Alert` model). -/
structure Alert where
  id : String
  parent_id : String
  teen_id : String
  type : String
  message : String
  is_read : Bool
deriving DecidableEq

/-- Request body of `POST /api/locations` (`LocationCreate`). -/
structure LocationCreate where
  teen_id : String
  latitude : ℚ
  longitude : ℚ
  accuracy : Option ℚ
  address : Option String
deriving DecidableEq

/-- The database state: the four collections the pipeline touches. -/
structure DB where
  teens : List Teen
  locations : List Location
  geofences : List Geofence
  alerts : List Alert
deriving DecidableEq

/-- A websocket JSON payload, modelled as an association list of string
fields (the dict passed to `json.dumps`). -/
abbrev Msg := List (String × String)

/-- Outcomes that abort a handler: an `HTTPException(status, detail)`, a
raise from the durable store (`StorageUnavailable`), or a raise from the
websocket transport (`ChannelSendFailure`). -/
inductive Err where
  | http (status : Nat) (detail : String)
  | storageUnavailable
  | channelSend
deriving DecidableEq

/-- The success body of `POST /api/locations`:
`{"status": "success", "location_id": location.id}`. -/
structure IngestResp where
  status : String
  location_id : String
deriving DecidableEq

instance {ε α : Type} [DecidableEq ε] [DecidableEq α] :
    DecidableEq (Except ε α) := fun a b =>
  match a, b with
  | .ok x, .ok y => decidable_of_iff (x = y) (by simp)
  | .ok _, .error _ => isFalse (by simp)
  | .error _, .ok _ => isFalse (by simp)
  | .error e, .error f => decidable_of_iff (e = f) (by simp)

/-- Result of one `create_location` call: the database after the call, the
payloads actually delivered to live channels, and the HTTP outcome. -/
structure IngestResult where
  db : DB
  sent : List (String × Msg)
  result : Except Err IngestResp
deriving DecidableEq

/-- Squared planar degree distance:
`(location.latitude - geofence.latitude)**2 + (location.longitude - geofence.longitude)**2`. -/
def distSq (alat alon blat blon : ℚ) : ℚ :=
  (alat - blat) ^ 2 + (alon - blon) ^ 2

/-- `server.py` lines 288-289: planar distance in rough meters,
`((lat₁-lat₂)**2 + (lon₁-lon₂)**2) ** 0.5 * 111000`. -/
noncomputable def distanceMeters (alat alon blat blon : ℚ) : ℝ :=
  Real.sqrt ((distSq alat alon blat blon : ℚ) : ℝ) * 111000

/-- The inclusion test of line 291: `distance <= geofence.radius`. -/
def insideFence (lat lon : ℚ) (g : Geofence) : Prop :=
  distanceMeters lat lon g.latitude g.longitude ≤ (g.radius : ℝ)

instance insideFenceDec (lat lon : ℚ) (g : Geofence) :
    Decidable (insideFence lat lon g) :=
  decidable_of_iff
    (0 ≤ g.radius ∧
      distSq lat lon g.latitude g.longitude * 111000 ^ 2 ≤ g.radius ^ 2)
    (by
      refine Iff.symm ?_
      unfold insideFence distanceMeters
      have hd : (0 : ℝ) ≤ ((distSq lat lon g.latitude g.longitude : ℚ) : ℝ) := by
        have : 0 ≤ distSq lat lon g.latitude g.longitude := by
          unfold distSq; positivity
        exact_mod_cast this
      have h111 : (0 : ℝ) ≤ (111000 : ℝ) := by norm_num
      have hmul :
          Real.sqrt ((distSq lat lon g.latitude g.longitude : ℚ) : ℝ) * 111000 =
            Real.sqrt
              (((distSq lat lon g.latitude g.longitude : ℚ) : ℝ) * 111000 ^ 2) := by
        rw [Real.sqrt_mul hd, Real.sqrt_sq h111]
      rw [hmul, Real.sqrt_le_iff]
      constructor
      · rintro ⟨hr, hsq⟩
        refine ⟨by exact_mod_cast hr, ?_⟩
        exact_mod_cast hsq
      · rintro ⟨hr, hsq⟩
        refine ⟨by exact_mod_cast hr, ?_⟩
        exact_mod_cast hsq)

/-- The geofence matcher: the fences of the loop at lines 285-291 for which
the inclusion test succeeds, in input order (a stable filter). -/
def matchFences (lat lon : ℚ) (fences : List Geofence) : List Geofence :=
  fences.filter (fun g => decide (insideFence lat lon g))

/-- `ConnectionManager.send_personal_message` (lines 49-51): if the parent
has an active connection, `send_text` is attempted on it; `fails` models
that attempt raising a transport error.  There is no try/except, so a
raise propagates to the caller.  On success the returned list records the
delivery performed (empty when no connection exists). -/
def send_personal_message (fails : Bool) (conns : List String)
    (message : Msg) (parent_id : String) : Except Err (List (String × Msg)) :=
  if parent_id ∈ conns then
    if fails then .error .channelSend else .ok [(parent_id, message)]
  else .ok []

/-- The dict pushed at lines 303-308. -/
def geofencePayload (teen : Teen) (g : Geofence) : Msg :=
  [("type", "geofence_alert"), ("teen_name", teen.name),
   ("geofence_name", g.name), ("action", "entered")]

/-- The `Alert` built at lines 293-298, with its fresh uuid `aid`. -/
def mkAlert (aid : String) (teen : Teen) (tid : String) (g : Geofence) : Alert :=
  { id := aid, parent_id := teen.parent_id, teen_id := tid,
    type := "geofence_enter",
    message := teen.name ++ " entered " ++ g.name, is_read := false }

/-- The `Location` built at line 280 from the request body, with its fresh
uuid `locId`. -/
def mkLocation (locId : String) (input : LocationCreate) : Location :=
  { id := locId, teen_id := input.teen_id, latitude := input.latitude,
    longitude := input.longitude, accuracy := input.accuracy,
    address := input.address }

/-- The body of the loop at lines 285-310, run over the remaining fences.
`k` counts the alerts already created (indexing the uuid supply and the
failure oracles).  A fence inside radius triggers: alert insert (raising
`storageUnavailable` when `recFail k`), then the websocket push.  A raise
aborts the loop; alerts inserted before the raise persist.  Returns the
alerts inserted, the payloads delivered, and the outcome. -/
def processFences (teen : Teen) (tid : String) (alertId : Nat → String)
    (recFail notFail : Nat → Bool) (conns : List String) (lat lon : ℚ) :
    Nat → List Geofence → List Alert × List (String × Msg) × Except Err Unit
  | _, [] => ([], [], .ok ())
  | k, g :: gs =>
    if insideFence lat lon g then
      if recFail k then ([], [], .error .storageUnavailable)
      else
        let a := mkAlert (alertId k) teen tid g
        match send_personal_message (notFail k) conns (geofencePayload teen g)
            teen.parent_id with
        | .error e => ([a], [], .error e)
        | .ok sent =>
          let r := processFences teen tid alertId recFail notFail conns lat lon
            (k + 1) gs
          (a :: r.1, sent ++ r.2.1, r.2.2)
    else processFences teen tid alertId recFail notFail conns lat lon k gs

/-- Same loop body, but over a list already known to be matched (used to
relate `processFences` to the matcher). -/
def processMatched (teen : Teen) (tid : String) (alertId : Nat → String)
    (recFail notFail : Nat → Bool) (conns : List String) :
    Nat → List Geofence → List Alert × List (String × Msg) × Except Err Unit
  | _, [] => ([], [], .ok ())
  | k, g :: gs =>
    if recFail k then ([], [], .error .storageUnavailable)
    else
      let a := mkAlert (alertId k) teen tid g
      match send_personal_message (notFail k) conns (geofencePayload teen g)
          teen.parent_id with
      | .error e => ([a], [], .error e)
      | .ok sent =>
        let r := processMatched teen tid alertId recFail notFail conns (k + 1) gs
        (a :: r.1, sent ++ r.2.1, r.2.2)

/-- The alerts created for a list of matched fences when nothing fails. -/
def mkAlerts (teen : Teen) (tid : String) (alertId : Nat → String) :
    Nat → List Geofence → List Alert
  | _, [] => []
  | k, g :: gs => mkAlert (alertId k) teen tid g :: mkAlerts teen tid alertId (k + 1) gs

/-- The payloads delivered for a list of matched fences when nothing
fails: one per fence if the parent is connected, none otherwise. -/
def sendsFor (teen : Teen) (conns : List String) (matched : List Geofence) :
    List (String × Msg) :=
  if teen.parent_id ∈ conns then
    matched.map (fun g => (teen.parent_id, geofencePayload teen g))
  else []

/-- The geofence collection query of line 284:
`db.geofences.find({"teen_id": teen_id})`. -/
def fencesOf (db : DB) (tid : String) : List Geofence :=
  db.geofences.filter (fun g => g.teen_id == tid)

/-- `create_location` (lines 273-312), the location ingest handler.
`locId` is the fresh uuid of the sample, `alertId` the uuid supply for
alerts.  Looks up the teen (404 if absent), inserts the sample, loads the
teen's fences and runs the geofence loop.  Database writes committed
before a raise persist; the success response carries the sample id. -/
def create_location (locId : String) (alertId : Nat → String)
    (recFail notFail : Nat → Bool) (conns : List String)
    (input : LocationCreate) (db : DB) : IngestResult :=
  match db.teens.find? (fun t => t.id == input.teen_id) with
  | none => ⟨db, [], .error (.http 404 "Teen not found")⟩
  | some teen =>
    let location : Location := mkLocation locId input
    let db1 : DB := { db with locations := db.locations ++ [location] }
    let r := processFences teen input.teen_id alertId recFail notFail conns
      input.latitude input.longitude 0 (fencesOf db input.teen_id)
    let db2 : DB := { db1 with alerts := db1.alerts ++ r.1 }
    match r.2.2 with
    | .ok _ => ⟨db2, r.2.1, .ok ⟨"success", location.id⟩⟩
    | .error e => ⟨db2, r.2.1, .error e⟩

/-- Modelled Mongo `update_one` semantics for
`db.alerts.update_one({"id": alert_id, "parent_id": parent_id}, {"$set": {"is_read": True}})`:
the first document matching the filter is updated; `modified_count` (the
returned `Nat`) counts documents actually changed, so a `$set` writing the
value the field already has reports 0. -/
def markReadUpdateOne (alert_id parent_id : String) :
    List Alert → List Alert × Nat
  | [] => ([], 0)
  | a :: as =>
    if a.id == alert_id && a.parent_id == parent_id then
      if a.is_read then (a :: as, 0) else ({ a with is_read := true } :: as, 1)
    else
      let r := markReadUpdateOne alert_id parent_id as
      (a :: r.1, r.2)

/-- `mark_alert_read` (lines 486-494): `PUT /api/alerts/{alert_id}/read`.
Raises 404 when `modified_count == 0`, otherwise returns
`{"status": "success"}` (modelled as the string `success`). -/
def mark_alert_read (alert_id parent_id : String) (db : DB) :
    DB × Except Err String :=
  let r := markReadUpdateOne alert_id parent_id db.alerts
  if r.2 == 0 then
    ({ db with alerts := r.1 }, .error (.http 404 "Alert not found"))
  else ({ db with alerts := r.1 }, .ok "success")

/-! Concrete data used by the witness and counterexample theorems below. -/

/-- A concrete teen owned by parent `p1`. -/
def teenW : Teen := ⟨"t1", "Alex", "p1", "d1"⟩

/-- A fence centered at the origin with radius 100. -/
def fenceHome : Geofence := ⟨"g0", "t1", "Home", 0, 0, 100, "safe", true, true⟩

/-- A second fence at the origin with radius 100. -/
def fenceSchool : Geofence := ⟨"g1", "t1", "School", 0, 0, 100, "safe", true, true⟩

/-- A fence at the origin with a negative radius (the `radius` field is an
unvalidated float in `GeofenceCreate`, so such a fence is creatable). -/
def fenceNeg : Geofence := ⟨"gn", "t1", "Nowhere", 0, 0, -1, "safe", true, true⟩

/-- Database with one teen and one fence. -/
def dbOne : DB := ⟨[teenW], [], [fenceHome], []⟩

/-- Database with one teen and two matched fences. -/
def dbTwo : DB := ⟨[teenW], [], [fenceHome, fenceSchool], []⟩

/-- Database whose only alert is already read. -/
def dbRead : DB := ⟨[teenW], [], [], [⟨"a1", "p1", "t1", "geofence_enter", "Alex entered Home", true⟩]⟩

/-- A location sample at the origin for teen `t1`. -/
def inpW : LocationCreate := ⟨"t1", 0, 0, none, none⟩

/-- A deterministic uuid supply for alerts. -/
def aIdW : Nat → String := fun k => "A" ++ toString k

/-- A failure oracle that never fires. -/
def noFail : Nat → Bool := fun _ => false

/-- A failure oracle firing on the first attempted operation only. -/
def failAt0 : Nat → Bool := fun k => k == 0

/-- A failure oracle firing on the second attempted operation only. -/
def failAt1 : Nat → Bool := fun k => k == 1

/-- A location sample for a teen id no teen has. -/
def inpUnknown : LocationCreate := ⟨"nope", 0, 0, none, none⟩

/-- The payload the server pushes for `teenW` entering `fenceHome`. -/
def pushedW : Msg :=
  [("type", "geofence_alert"), ("teen_name", "Alex"),
   ("geofence_name", "Home"), ("action", "entered")]

/-! Helper lemmas about the pipeline. -/

/-- The real-valued inclusion test is equivalent to a decidable rational
test: nonnegative radius and squared distance (scaled) below squared
radius. -/
theorem insideFence_iff (lat lon : ℚ) (g : Geofence) :
    insideFence lat lon g ↔
      0 ≤ g.radius ∧
        distSq lat lon g.latitude g.longitude * 111000 ^ 2 ≤ g.radius ^ 2 := by
  unfold insideFence distanceMeters
  have hd : (0 : ℝ) ≤ ((distSq lat lon g.latitude g.longitude : ℚ) : ℝ) := by
    have : 0 ≤ distSq lat lon g.latitude g.longitude := by
      unfold distSq; positivity
    exact_mod_cast this
  have h111 : (0 : ℝ) ≤ (111000 : ℝ) := by norm_num
  have hmul :
      Real.sqrt ((distSq lat lon g.latitude g.longitude : ℚ) : ℝ) * 111000 =
        Real.sqrt
          (((distSq lat lon g.latitude g.longitude : ℚ) : ℝ) * 111000 ^ 2) := by
    rw [Real.sqrt_mul hd, Real.sqrt_sq h111]
  rw [hmul, Real.sqrt_le_iff]
  constructor
  · rintro ⟨hr, hsq⟩
    refine ⟨by exact_mod_cast hr, ?_⟩
    exact_mod_cast hsq
  · rintro ⟨hr, hsq⟩
    refine ⟨by exact_mod_cast hr, ?_⟩
    exact_mod_cast hsq

theorem mem_matchFences_iff (lat lon : ℚ) (fences : List Geofence) (g : Geofence) :
    g ∈ matchFences lat lon fences ↔ g ∈ fences ∧ insideFence lat lon g := by
  simp [matchFences, List.mem_filter]

theorem matchFences_sublist (lat lon : ℚ) (fences : List Geofence) :
    (matchFences lat lon fences).Sublist fences :=
  List.filter_sublist fences

theorem matchFences_cons_pos (lat lon : ℚ) (g : Geofence) (gs : List Geofence)
    (h : insideFence lat lon g) :
    matchFences lat lon (g :: gs) = g :: matchFences lat lon gs := by
  simp [matchFences, List.filter_cons, h]

theorem matchFences_cons_neg (lat lon : ℚ) (g : Geofence) (gs : List Geofence)
    (h : ¬insideFence lat lon g) :
    matchFences lat lon (g :: gs) = matchFences lat lon gs := by
  simp [matchFences, List.filter_cons, h]

/-- Looping over all fences with the inclusion test is the same as looping
over the matched fences. -/
theorem processFences_eq (teen : Teen) (tid : String) (alertId : Nat → String)
    (recFail notFail : Nat → Bool) (conns : List String) (lat lon : ℚ) :
    ∀ (fences : List Geofence) (k : Nat),
      processFences teen tid alertId recFail notFail conns lat lon k fences =
        processMatched teen tid alertId recFail notFail conns k
          (matchFences lat lon fences) := by
  intro fences
  induction fences with
  | nil => intro k; simp [processFences, matchFences, processMatched]
  | cons g gs ih =>
    intro k
    by_cases h : insideFence lat lon g
    · rw [matchFences_cons_pos lat lon g gs h]
      simp only [processFences, processMatched, if_pos h]
      cases hr : recFail k with
      | true => rfl
      | false =>
        cases hs : send_personal_message (notFail k) conns (geofencePayload teen g)
            teen.parent_id with
        | error e => simp [hs]
        | ok sent => simp [hs, ih]
    · rw [matchFences_cons_neg lat lon g gs h]
      simp only [processFences, if_neg h]
      exact ih k

/-- When no infrastructure failure fires, the loop creates one alert per
matched fence, delivers one payload per matched fence if the parent is
connected (none otherwise), and finishes normally. -/
theorem processMatched_ok (teen : Teen) (tid : String) (alertId : Nat → String)
    (conns : List String) :
    ∀ (l : List Geofence) (k : Nat),
      processMatched teen tid alertId noFail noFail conns k l =
        (mkAlerts teen tid alertId k l, sendsFor teen conns l, .ok ()) := by
  intro l
  induction l with
  | nil => intro k; simp [processMatched, mkAlerts, sendsFor]
  | cons g gs ih =>
    intro k
    by_cases hc : teen.parent_id ∈ conns
    · simp [processMatched, noFail, send_personal_message, hc, ih, mkAlerts, sendsFor]
    · simp [processMatched, noFail, send_personal_message, hc, ih, mkAlerts, sendsFor]

/-- Every alert the loop creates carries the looked-up teen's parent id and
the ingested teen id. -/
theorem processFences_alert_fields (teen : Teen) (tid : String)
    (alertId : Nat → String) (recFail notFail : Nat → Bool)
    (conns : List String) (lat lon : ℚ) :
    ∀ (l : List Geofence) (k : Nat) (a : Alert),
      a ∈ (processFences teen tid alertId recFail notFail conns lat lon k l).1 →
        a.parent_id = teen.parent_id ∧ a.teen_id = tid := by
  intro l
  induction l with
  | nil => intro k a ha; simp [processFences] at ha
  | cons g gs ih =>
    intro k a ha
    by_cases h : insideFence lat lon g
    · simp only [processFences, if_pos h] at ha
      cases hr : recFail k with
      | true => rw [hr] at ha; simp at ha
      | false =>
        rw [hr] at ha
        cases hs : send_personal_message (notFail k) conns (geofencePayload teen g)
            teen.parent_id with
        | error e =>
          rw [hs] at ha
          simp at ha
          subst ha
          exact ⟨rfl, rfl⟩
        | ok sent =>
          rw [hs] at ha
          simp at ha
          rcases ha with ha | ha
          · subst ha; exact ⟨rfl, rfl⟩
          · exact ih (k + 1) a ha
    · simp only [processFences, if_neg h] at ha
      exact ih k a ha

/-- Every payload the loop delivers goes to the teen's parent and has the
shape built at lines 303-308, for some fence of the list that passes the
inclusion test. -/
theorem processFences_sent_shape (teen : Teen) (tid : String)
    (alertId : Nat → String) (recFail notFail : Nat → Bool)
    (conns : List String) (lat lon : ℚ) :
    ∀ (l : List Geofence) (k : Nat) (p : String) (m : Msg),
      (p, m) ∈ (processFences teen tid alertId recFail notFail conns lat lon k l).2.1 →
        ∃ g, g ∈ l ∧ insideFence lat lon g ∧ p = teen.parent_id ∧
          m = geofencePayload teen g := by
  intro l
  induction l with
  | nil => intro k p m hm; simp [processFences] at hm
  | cons g gs ih =>
    intro k p m hm
    by_cases h : insideFence lat lon g
    · simp only [processFences, if_pos h] at hm
      cases hr : recFail k with
      | true => rw [hr] at hm; simp at hm
      | false =>
        rw [hr] at hm
        cases hs : send_personal_message (notFail k) conns (geofencePayload teen g)
            teen.parent_id with
        | error e => rw [hs] at hm; simp at hm
        | ok sent =>
          rw [hs] at hm
          simp at hm
          rcases hm with hm | hm
          · have hsent : sent = [] ∨ sent = [(teen.parent_id, geofencePayload teen g)] := by
              unfold send_personal_message at hs
              by_cases hc : teen.parent_id ∈ conns
              · rw [if_pos hc] at hs
                cases hn : notFail k with
                | true => rw [hn] at hs; simp at hs
                | false => rw [hn] at hs; simp at hs; right; exact hs.symm
              · rw [if_neg hc] at hs
                simp at hs
                left; exact hs
            rcases hsent with hsent | hsent
            · subst hsent; simp at hm
            · subst hsent
              simp at hm
              exact ⟨g, List.mem_cons_self g gs, h, hm.1, hm.2⟩
          · rcases ih (k + 1) p m hm with ⟨g', hg', rest⟩
            exact ⟨g', List.mem_cons_of_mem g hg', rest⟩
    · simp only [processFences, if_neg h] at hm
      rcases ih k p m hm with ⟨g', hg', rest⟩
      exact ⟨g', List.mem_cons_of_mem g hg', rest⟩

/-- If the operations for the matched fences `pre` all succeed and the
recorder or the notifier fails on the next matched fence, the loop stops
with that error: the deliveries are exactly those for `pre` and at most
one alert beyond those for `pre` was inserted. -/
theorem processMatched_fail (teen : Teen) (tid : String) (alertId : Nat → String)
    (recFail notFail : Nat → Bool) (conns : List String) :
    ∀ (pre : List Geofence) (g : Geofence) (post : List Geofence) (k : Nat),
      (∀ j, j < pre.length → recFail (k + j) = false ∧
        (teen.parent_id ∈ conns → notFail (k + j) = false)) →
      (recFail (k + pre.length) = true ∨
        (teen.parent_id ∈ conns ∧ notFail (k + pre.length) = true)) →
      ∃ e as,
        processMatched teen tid alertId recFail notFail conns k (pre ++ g :: post) =
          (as, sendsFor teen conns pre, .error e) ∧
        as.length ≤ pre.length + 1 := by
  intro pre
  induction pre with
  | nil =>
    intro g post k _ hfail
    cases hr : recFail k with
    | true =>
      refine ⟨.storageUnavailable, [], ?_, by simp⟩
      simp [processMatched, hr, sendsFor]
    | false =>
      rcases hfail with hfail | ⟨hc, hn⟩
      · simp only [List.length_nil, Nat.add_zero] at hfail
        rw [hfail] at hr; cases hr
      · simp only [List.length_nil, Nat.add_zero] at hn
        refine ⟨.channelSend, [mkAlert (alertId k) teen tid g], ?_, by simp⟩
        simp [processMatched, hr, send_personal_message, hc, hn, sendsFor]
  | cons p pre ih =>
    intro g post k hok hfail
    have h0 := hok 0 (by simp)
    rw [Nat.add_zero] at h0
    have hok' : ∀ j, j < pre.length → recFail (k + 1 + j) = false ∧
        (teen.parent_id ∈ conns → notFail (k + 1 + j) = false) := by
      intro j hj
      have := hok (j + 1) (by simp only [List.length_cons]; omega)
      rwa [show k + (j + 1) = k + 1 + j by omega] at this
    have hfail' : recFail (k + 1 + pre.length) = true ∨
        (teen.parent_id ∈ conns ∧ notFail (k + 1 + pre.length) = true) := by
      rwa [show k + (p :: pre).length = k + 1 + pre.length by
        simp only [List.length_cons]; omega] at hfail
    rcases ih g post (k + 1) hok' hfail' with ⟨e, as, heq, hlen⟩
    by_cases hc : teen.parent_id ∈ conns
    · refine ⟨e, mkAlert (alertId k) teen tid p :: as, ?_, by simpa using hlen⟩
      simp [processMatched, h0.1, send_personal_message, hc, h0.2 hc, heq, sendsFor]
    · refine ⟨e, mkAlert (alertId k) teen tid p :: as, ?_, by simpa using hlen⟩
      simp [processMatched, h0.1, send_personal_message, hc, heq, sendsFor]

/-- If no alert has both the requested id and the requesting parent, the
modelled `update_one` touches nothing and reports 0 modified documents. -/
theorem markReadUpdateOne_no_match (aid pid : String) :
    ∀ l : List Alert, (∀ a, a ∈ l → a.id = aid → a.parent_id ≠ pid) →
      markReadUpdateOne aid pid l = (l, 0) := by
  intro l
  induction l with
  | nil => intro _; rfl
  | cons a as ih =>
    intro h
    have hguard : (a.id == aid && a.parent_id == pid) = false := by
      by_cases h1 : a.id = aid
      · have h2 := h a (List.mem_cons_self a as) h1
        simp [h1, h2]
      · simp [h1]
    simp only [markReadUpdateOne, hguard, Bool.false_eq_true, if_false]
    rw [ih (fun b hb => h b (List.mem_cons_of_mem a hb))]

/-- Unfolding of `create_location` when the teen lookup succeeds, phrased
through the matched-fence loop. -/
theorem create_location_some (locId : String) (alertId : Nat → String)
    (recFail notFail : Nat → Bool) (conns : List String)
    (input : LocationCreate) (db : DB) (teen : Teen)
    (h : db.teens.find? (fun t => t.id == input.teen_id) = some teen) :
    (create_location locId alertId recFail notFail conns input db).db =
      { db with
        locations := db.locations ++ [mkLocation locId input],
        alerts := db.alerts ++
          (processMatched teen input.teen_id alertId recFail notFail conns 0
            (matchFences input.latitude input.longitude
              (fencesOf db input.teen_id))).1 } ∧
    (create_location locId alertId recFail notFail conns input db).sent =
      (processMatched teen input.teen_id alertId recFail notFail conns 0
        (matchFences input.latitude input.longitude
          (fencesOf db input.teen_id))).2.1 ∧
    (create_location locId alertId recFail notFail conns input db).result =
      (match (processMatched teen input.teen_id alertId recFail notFail conns 0
          (matchFences input.latitude input.longitude
            (fencesOf db input.teen_id))).2.2 with
        | .ok _ => .ok ⟨"success", locId⟩
        | .error e => .error e) := by
  have hpf := processFences_eq teen input.teen_id alertId recFail notFail conns
    input.latitude input.longitude (fencesOf db input.teen_id) 0
  simp only [create_location, h, hpf]
  rcases hpm : processMatched teen input.teen_id alertId recFail notFail conns 0
      (matchFences input.latitude input.longitude (fencesOf db input.teen_id)) with
    ⟨as, ms, r⟩
  cases r with
  | ok u => exact ⟨rfl, rfl, rfl⟩
  | error e => exact ⟨rfl, rfl, rfl⟩

/-! Claim theorems. -/

/-- C1: for every location sample and every sequence of geofences for its
subject, the matcher selects exactly the fences whose computed distance
from the sample coordinate to the fence center is at most the fence
radius, in input order (a stable sublist); an empty input yields an empty
result; and an ingest over those fences (with no infrastructure failure)
processes exactly the matched fences and succeeds, never erring. -/
theorem C1_matcher_stable_filter (locId : String) (alertId : Nat → String)
    (conns : List String) (input : LocationCreate) (db : DB) (teen : Teen)
    (h : db.teens.find? (fun t => t.id == input.teen_id) = some teen) :
    (∀ g, g ∈ matchFences input.latitude input.longitude (fencesOf db input.teen_id) ↔
      g ∈ fencesOf db input.teen_id ∧
        distanceMeters input.latitude input.longitude g.latitude g.longitude ≤
          (g.radius : ℝ)) ∧
    (matchFences input.latitude input.longitude (fencesOf db input.teen_id)).Sublist
      (fencesOf db input.teen_id) ∧
    matchFences input.latitude input.longitude ([] : List Geofence) = [] ∧
    create_location locId alertId noFail noFail conns input db =
      ⟨{ db with
         locations := db.locations ++ [mkLocation locId input],
         alerts := db.alerts ++ mkAlerts teen input.teen_id alertId 0
           (matchFences input.latitude input.longitude (fencesOf db input.teen_id)) },
       sendsFor teen conns
         (matchFences input.latitude input.longitude (fencesOf db input.teen_id)),
       .ok ⟨"success", locId⟩⟩ := by
  refine ⟨?_, matchFences_sublist _ _ _, rfl, ?_⟩
  · intro g
    rw [mem_matchFences_iff]
    exact Iff.rfl
  · rcases create_location_some locId alertId noFail noFail conns input db teen h with
      ⟨h1, h2, h3⟩
    rw [processMatched_ok] at h1 h2 h3
    simp only [] at h3
    calc create_location locId alertId noFail noFail conns input db =
        ⟨(create_location locId alertId noFail noFail conns input db).db,
         (create_location locId alertId noFail noFail conns input db).sent,
         (create_location locId alertId noFail noFail conns input db).result⟩ := rfl
      _ = _ := by rw [h1, h2, h3]

/-- C1 witness: a concrete ingest at the origin against a single fence
centered there. -/
theorem C1_witness :
    dbOne.teens.find? (fun t => t.id == inpW.teen_id) = some teenW ∧
    ((∀ g, g ∈ matchFences inpW.latitude inpW.longitude (fencesOf dbOne inpW.teen_id) ↔
      g ∈ fencesOf dbOne inpW.teen_id ∧
        distanceMeters inpW.latitude inpW.longitude g.latitude g.longitude ≤
          (g.radius : ℝ)) ∧
    (matchFences inpW.latitude inpW.longitude (fencesOf dbOne inpW.teen_id)).Sublist
      (fencesOf dbOne inpW.teen_id) ∧
    matchFences inpW.latitude inpW.longitude ([] : List Geofence) = [] ∧
    create_location "L1" aIdW noFail noFail ["p1"] inpW dbOne =
      ⟨{ dbOne with
         locations := dbOne.locations ++ [mkLocation "L1" inpW],
         alerts := dbOne.alerts ++ mkAlerts teenW inpW.teen_id aIdW 0
           (matchFences inpW.latitude inpW.longitude (fencesOf dbOne inpW.teen_id)) },
       sendsFor teenW ["p1"]
         (matchFences inpW.latitude inpW.longitude (fencesOf dbOne inpW.teen_id)),
       .ok ⟨"success", "L1"⟩⟩) :=
  ⟨by with_unfolding_all decide,
   C1_matcher_stable_filter "L1" aIdW ["p1"] inpW dbOne teenW
     (by with_unfolding_all decide)⟩

/-- C2 counterexample: with two matched fences, a recorder failure on the
first one makes the whole ingest report `storageUnavailable` instead of
success, and the remaining matched fence gets no alert — refuting the
claim that per-fence failures are swallowed and the call still succeeds. -/
theorem C2_counterexample :
    (create_location "L1" aIdW failAt0 noFail [] inpW dbTwo).result =
      .error .storageUnavailable ∧
    (create_location "L1" aIdW failAt0 noFail [] inpW dbTwo).db.alerts = [] ∧
    matchFences inpW.latitude inpW.longitude (fencesOf dbTwo inpW.teen_id) =
      [fenceHome, fenceSchool] := by
  with_unfolding_all decide

/-- C2 (amended): after a successful sample write, a recorder or notifier
failure on a matched fence aborts the processing of the remaining matched
fences and the ingest call reports that error to the caller instead of
success; the persisted sample, the alerts of the earlier fences (at most
one alert beyond them) and their deliveries are retained. -/
theorem C2_failure_propagates (locId : String) (alertId : Nat → String)
    (recFail notFail : Nat → Bool) (conns : List String) (input : LocationCreate)
    (db : DB) (teen : Teen) (pre : List Geofence) (g : Geofence) (post : List Geofence)
    (hfind : db.teens.find? (fun t => t.id == input.teen_id) = some teen)
    (hsplit : matchFences input.latitude input.longitude (fencesOf db input.teen_id) =
      pre ++ g :: post)
    (hok : ∀ j, j < pre.length → recFail j = false ∧
      (teen.parent_id ∈ conns → notFail j = false))
    (hfail : recFail pre.length = true ∨
      (teen.parent_id ∈ conns ∧ notFail pre.length = true)) :
    ∃ e as,
      create_location locId alertId recFail notFail conns input db =
        ⟨{ db with
           locations := db.locations ++ [mkLocation locId input],
           alerts := db.alerts ++ as },
         sendsFor teen conns pre, .error e⟩ ∧
      as.length ≤ pre.length + 1 := by
  have hok0 : ∀ j, j < pre.length → recFail (0 + j) = false ∧
      (teen.parent_id ∈ conns → notFail (0 + j) = false) := by
    simpa using hok
  have hfail0 : recFail (0 + pre.length) = true ∨
      (teen.parent_id ∈ conns ∧ notFail (0 + pre.length) = true) := by
    simpa using hfail
  rcases processMatched_fail teen input.teen_id alertId recFail notFail conns
      pre g post 0 hok0 hfail0 with ⟨e, as, heq, hlen⟩
  rcases create_location_some locId alertId recFail notFail conns input db teen hfind
    with ⟨h1, h2, h3⟩
  rw [hsplit, heq] at h1 h2 h3
  refine ⟨e, as, ?_, hlen⟩
  calc create_location locId alertId recFail notFail conns input db =
      ⟨(create_location locId alertId recFail notFail conns input db).db,
       (create_location locId alertId recFail notFail conns input db).sent,
       (create_location locId alertId recFail notFail conns input db).result⟩ := rfl
    _ = _ := by rw [h1, h2, h3]

/-- C2 witness: a recorder failure on the second of two matched fences. -/
theorem C2_witness :
    dbTwo.teens.find? (fun t => t.id == inpW.teen_id) = some teenW ∧
    matchFences inpW.latitude inpW.longitude (fencesOf dbTwo inpW.teen_id) =
      [fenceHome] ++ fenceSchool :: [] ∧
    (∃ e as,
      create_location "L1" aIdW failAt1 noFail [] inpW dbTwo =
        ⟨{ dbTwo with
           locations := dbTwo.locations ++ [mkLocation "L1" inpW],
           alerts := dbTwo.alerts ++ as },
         sendsFor teenW [] [fenceHome], .error e⟩ ∧
      as.length ≤ [fenceHome].length + 1) :=
  ⟨by with_unfolding_all decide, by with_unfolding_all decide,
   C2_failure_propagates "L1" aIdW failAt1 noFail [] inpW dbTwo teenW
     [fenceHome] fenceSchool []
     (by with_unfolding_all decide) (by with_unfolding_all decide)
     (by
       intro j hj
       simp only [List.length_cons, List.length_nil] at hj
       interval_cases j
       exact ⟨rfl, fun hc => by simp at hc⟩)
     (Or.inl rfl)⟩

/-- C3: re-marking an already-read alert does NOT succeed idempotently:
because the handler tests Mongo's `modified_count` (which is 0 when `$set`
writes the value the field already has) instead of `matched_count`, the
call raises 404 "Alert not found" for an alert that exists, is owned by
the requester and is already read.  The state is indeed unchanged, but the
operation errors, contradicting the claim (and the handler's own error
message). -/
theorem C3_already_read_marks_404 :
    dbRead.alerts = [⟨"a1", "p1", "t1", "geofence_enter", "Alex entered Home", true⟩] ∧
    mark_alert_read "a1" "p1" dbRead =
      (dbRead, .error (.http 404 "Alert not found")) := by
  with_unfolding_all decide

/-- C4 counterexample: the pushed payload's field names are `teen_name`
and `geofence_name`, not the claimed `subject_name` and `fence_name`. -/
theorem C4_counterexample :
    (create_location "L1" aIdW noFail noFail ["p1"] inpW dbOne).sent =
      [("p1", pushedW)] ∧
    pushedW.lookup "subject_name" = none ∧
    pushedW.lookup "fence_name" = none ∧
    pushedW.lookup "teen_name" = some "Alex" ∧
    pushedW.lookup "geofence_name" = some "Home" := by
  with_unfolding_all decide

/-- C4 (amended): every payload pushed to a connected parent channel for a
matched fence has exactly the shape
`{type: "geofence_alert", teen_name: <subject's name>, geofence_name: <fence's name>, action: "entered"}`,
with those field names, and goes to the subject's parent. -/
theorem C4_payload_shape (locId : String) (alertId : Nat → String)
    (recFail notFail : Nat → Bool) (conns : List String) (input : LocationCreate)
    (db : DB) (p : String) (m : Msg)
    (hm : (p, m) ∈ (create_location locId alertId recFail notFail conns input db).sent) :
    ∃ teen g, db.teens.find? (fun t => t.id == input.teen_id) = some teen ∧
      g ∈ fencesOf db input.teen_id ∧ insideFence input.latitude input.longitude g ∧
      p = teen.parent_id ∧
      m = [("type", "geofence_alert"), ("teen_name", teen.name),
           ("geofence_name", g.name), ("action", "entered")] := by
  cases hfind : db.teens.find? (fun t => t.id == input.teen_id) with
  | none => simp [create_location, hfind] at hm
  | some teen =>
    have h2 := (create_location_some locId alertId recFail notFail conns input db
      teen hfind).2.1
    rw [h2, ← processFences_eq] at hm
    rcases processFences_sent_shape teen input.teen_id alertId recFail notFail conns
        input.latitude input.longitude (fencesOf db input.teen_id) 0 p m hm with
      ⟨g, hg, hin, hp, hm'⟩
    exact ⟨teen, g, rfl, hg, hin, hp, by rw [hm']; rfl⟩

/-- C4 witness: the payload delivered for a concrete matched fence. -/
theorem C4_witness :
    ("p1", pushedW) ∈
      (create_location "L1" aIdW noFail noFail ["p1"] inpW dbOne).sent ∧
    (∃ teen g, dbOne.teens.find? (fun t => t.id == inpW.teen_id) = some teen ∧
      g ∈ fencesOf dbOne inpW.teen_id ∧ insideFence inpW.latitude inpW.longitude g ∧
      "p1" = teen.parent_id ∧
      pushedW = [("type", "geofence_alert"), ("teen_name", teen.name),
           ("geofence_name", g.name), ("action", "entered")]) :=
  ⟨by with_unfolding_all decide,
   C4_payload_shape "L1" aIdW noFail noFail ["p1"] inpW dbOne "p1" pushedW
     (by with_unfolding_all decide)⟩

/-- C5 counterexample: a transport error during the send attempt on a
connected channel escapes `send_personal_message` — the notifier does not
swallow it, refuting "the notifier never raises to its caller". -/
theorem C5_counterexample :
    send_personal_message true ["p1"] pushedW "p1" = .error .channelSend := by
  with_unfolding_all decide

/-- C5 (amended): when the registry has no entry for the parent the
notifier silently returns; but when an entry exists, a transport error
during the send attempt propagates to the caller — an error escapes
exactly when the parent is connected and the send attempt fails. -/
theorem C5_notifier_behavior (fails : Bool) (conns : List String) (m : Msg)
    (pid : String) :
    (pid ∉ conns → send_personal_message fails conns m pid = .ok []) ∧
    ((∃ e, send_personal_message fails conns m pid = .error e) ↔
      pid ∈ conns ∧ fails = true) := by
  unfold send_personal_message
  by_cases hc : pid ∈ conns
  · cases fails <;> simp [hc]
  · simp [hc]

/-- C5 witness: a disconnected parent is skipped silently even when the
transport would fail; a connected parent with a failing transport yields
an escaping error. -/
theorem C5_witness :
    send_personal_message true ["p1"] pushedW "nobody" = .ok [] ∧
    (∃ e, send_personal_message true ["p1"] pushedW "p1" = .error e) :=
  ⟨(C5_notifier_behavior true ["p1"] pushedW "nobody").1 (by with_unfolding_all decide),
   (C5_notifier_behavior true ["p1"] pushedW "p1").2.mpr
     ⟨by with_unfolding_all decide, rfl⟩⟩

/-- C6: when the subject id resolves to no teen, the ingest fails with the
404 "Teen not found" error and the database is returned unchanged — no
location sample and no alert is written, and nothing is pushed. -/
theorem C6_unknown_subject_aborts (locId : String) (alertId : Nat → String)
    (recFail notFail : Nat → Bool) (conns : List String) (input : LocationCreate)
    (db : DB)
    (h : db.teens.find? (fun t => t.id == input.teen_id) = none) :
    create_location locId alertId recFail notFail conns input db =
      ⟨db, [], .error (.http 404 "Teen not found")⟩ := by
  simp [create_location, h]

/-- C6 witness: ingesting for an unknown teen id against a concrete
database. -/
theorem C6_witness :
    dbOne.teens.find? (fun t => t.id == inpUnknown.teen_id) = none ∧
    create_location "L1" aIdW noFail noFail ["p1"] inpUnknown dbOne =
      ⟨dbOne, [], .error (.http 404 "Teen not found")⟩ :=
  ⟨by with_unfolding_all decide,
   C6_unknown_subject_aborts "L1" aIdW noFail noFail ["p1"] inpUnknown dbOne
     (by with_unfolding_all decide)⟩

/-- C7: every alert present after an ingest call either predates the call
or carries the parent id of the subject its `teen_id` resolves to — the
ingest pipeline only writes alerts with `alert.parent_id` equal to the
subject's `parent_id`. -/
theorem C7_alert_owned_by_subjects_parent (locId : String) (alertId : Nat → String)
    (recFail notFail : Nat → Bool) (conns : List String) (input : LocationCreate)
    (db : DB) (a : Alert)
    (ha : a ∈ (create_location locId alertId recFail notFail conns input db).db.alerts) :
    a ∈ db.alerts ∨
      ∃ t, db.teens.find? (fun x => x.id == a.teen_id) = some t ∧
        a.parent_id = t.parent_id := by
  cases hfind : db.teens.find? (fun t => t.id == input.teen_id) with
  | none =>
    left
    simp [create_location, hfind] at ha
    exact ha
  | some teen =>
    have h1 := (create_location_some locId alertId recFail notFail conns input db
      teen hfind).1
    rw [h1] at ha
    simp only [List.mem_append] at ha
    rcases ha with ha | ha
    · left; exact ha
    · right
      rw [← processFences_eq] at ha
      rcases processFences_alert_fields teen input.teen_id alertId recFail notFail
        conns input.latitude input.longitude (fencesOf db input.teen_id) 0 a ha with
        ⟨hp, ht⟩
      refine ⟨teen, ?_, hp⟩
      simp only [ht]
      exact hfind

/-- C7 witness: the alert written by a concrete ingest resolves back to
its subject and carries that subject's parent id. -/
theorem C7_witness :
    mkAlert "A0" teenW "t1" fenceHome ∈
      (create_location "L1" aIdW noFail noFail [] inpW dbOne).db.alerts ∧
    (mkAlert "A0" teenW "t1" fenceHome ∈ dbOne.alerts ∨
      ∃ t, dbOne.teens.find?
          (fun x => x.id == (mkAlert "A0" teenW "t1" fenceHome).teen_id) = some t ∧
        (mkAlert "A0" teenW "t1" fenceHome).parent_id = t.parent_id) :=
  ⟨by with_unfolding_all decide,
   C7_alert_owned_by_subjects_parent "L1" aIdW noFail noFail [] inpW dbOne
     (mkAlert "A0" teenW "t1" fenceHome) (by with_unfolding_all decide)⟩

/-- C8 counterexample: a fence whose radius is the (unvalidated) float -1
is centered exactly at the sample, yet the matcher excludes it, because
the computed distance 0 does not satisfy `0 <= -1` — refuting "a sample at
the center is always included". -/
theorem C8_counterexample :
    fenceNeg.latitude = 0 ∧ fenceNeg.longitude = 0 ∧
    fenceNeg ∉ matchFences 0 0 [fenceNeg] := by
  refine ⟨rfl, rfl, ?_⟩
  with_unfolding_all decide

/-- C8 (amended): a fence centered exactly at the sample coordinate is
included by the matcher whenever its radius is nonnegative (the computed
distance is 0, which then satisfies the inclusion test). -/
theorem C8_center_always_inside (lat lon : ℚ) (fences : List Geofence) (g : Geofence)
    (hmem : g ∈ fences) (hlat : g.latitude = lat) (hlon : g.longitude = lon)
    (hr : 0 ≤ g.radius) : g ∈ matchFences lat lon fences := by
  rw [mem_matchFences_iff]
  refine ⟨hmem, ?_⟩
  rw [insideFence_iff]
  refine ⟨hr, ?_⟩
  rw [hlat, hlon]
  have h0 : distSq lat lon lat lon = 0 := by unfold distSq; ring
  rw [h0, zero_mul]
  positivity

/-- C8 witness: a concrete fence at the sample coordinate with radius 100
is matched. -/
theorem C8_witness :
    fenceHome ∈ [fenceHome] ∧ fenceHome.latitude = 0 ∧ fenceHome.longitude = 0 ∧
    0 ≤ fenceHome.radius ∧ fenceHome ∈ matchFences 0 0 [fenceHome] :=
  ⟨by decide, rfl, rfl, by with_unfolding_all decide,
   C8_center_always_inside 0 0 [fenceHome] fenceHome (by decide) rfl rfl
     (by with_unfolding_all decide)⟩

/-- C9: the planar distance is symmetric, zero on identical coordinates,
and non-negative (the model is real-valued, hence always finite). -/
theorem C9_distance_algebra (alat alon blat blon : ℚ) :
    distanceMeters alat alon blat blon = distanceMeters blat blon alat alon ∧
    distanceMeters alat alon alat alon = 0 ∧
    0 ≤ distanceMeters alat alon blat blon := by
  refine ⟨?_, ?_, ?_⟩
  · unfold distanceMeters
    have h : distSq alat alon blat blon = distSq blat blon alat alon := by
      unfold distSq; ring
    rw [h]
  · unfold distanceMeters
    have h : distSq alat alon alat alon = 0 := by unfold distSq; ring
    rw [h]
    simp
  · unfold distanceMeters
    positivity

/-- C10: when an alert with the requested id exists but none of the alerts
with that id belongs to the requesting parent, marking it read reports 404
"Alert not found" and leaves the database unchanged — another parent's
alerts are never affected. -/
theorem C10_cross_parent_mark_read_rejected (alert_id pid : String) (db : DB)
    (hex : ∃ a, a ∈ db.alerts ∧ a.id = alert_id)
    (hfor : ∀ a, a ∈ db.alerts → a.id = alert_id → a.parent_id ≠ pid) :
    mark_alert_read alert_id pid db = (db, .error (.http 404 "Alert not found")) := by
  have h := markReadUpdateOne_no_match alert_id pid db.alerts hfor
  simp [mark_alert_read, h]

/-- C10 witness: parent `p2` tries to mark `p1`'s alert as read. -/
theorem C10_witness :
    (∃ a, a ∈ dbRead.alerts ∧ a.id = "a1") ∧
    (∀ a, a ∈ dbRead.alerts → a.id = "a1" → a.parent_id ≠ "p2") ∧
    mark_alert_read "a1" "p2" dbRead =
      (dbRead, .error (.http 404 "Alert not found")) :=
  ⟨⟨⟨"a1", "p1", "t1", "geofence_enter", "Alex entered Home", true⟩,
     by with_unfolding_all decide, rfl⟩,
   by with_unfolding_all decide,
   C10_cross_parent_mark_read_rejected "a1" "p2" dbRead
     ⟨⟨"a1", "p1", "t1", "geofence_enter", "Alex entered Home", true⟩,
       by with_unfolding_all decide, rfl⟩
     (by with_unfolding_all decide)⟩

end GeofenceApp
